import Mathlib

/-!
Shallow embedding of src/index.js, a thin Express HTTP facade over the
Solana SDK.  The source file concatenates two variants of the same
server; the first variant is embedded in the root namespace and the
second in namespace V2 where a claim compares them.  External SDK calls
are modelled as an oracle record of functions (Sdk): each fallible call
returns Except String carrying the thrown error message, and pure SDK
helpers are plain function fields.  JavaScript numbers are modelled
exactly: integers as Nat / Int, the Number-of-BigInt conversion made
explicit in jsNumberOfNat, and the one fractional value (the SOL
balance) as Rat.
-/

/-- Base-58 encoded public keys are kept in their string form; the
JavaScript toString / toBase58 on a PublicKey is then the identity. -/
abbrev Pubkey := String

/-- Solana keypair; only the public key is observable in this code, so
the secret half is not modelled. -/
structure Keypair where
  publicKey : Pubkey
  deriving DecidableEq, Repr

/-- Account meta entry of an instruction, as in web3.js. -/
structure AccountMeta where
  pubkey : Pubkey
  isSigner : Bool
  isWritable : Bool
  deriving DecidableEq, Repr

/-- An instruction as returned by the SDK: program id, account keys and
opaque serialized data. -/
structure RawInstruction where
  programId : Pubkey
  keys : List AccountMeta
  data : String
  deriving DecidableEq, Repr

/-- Token-2022 extension kinds used by the code. -/
inductive ExtensionType where
  | TransferHook
  deriving DecidableEq, Repr

/-- Instructions placed in a Transaction by this repository.  The three
named constructors stand for the symbolic spl-token / web3.js builders
whose serialized form the repository never inspects; raw wraps an
instruction object obtained from the SDK (possibly mutated). -/
inductive Ix where
  | createAccount (fromPubkey newAccountPubkey : Pubkey) (space lamports : Nat)
      (programId : Pubkey)
  | initializeTransferHook (mint authority hookProgramId tokenProgramId : Pubkey)
  | initializeMint (mint : Pubkey) (decimals : Nat) (mintAuthority : Pubkey)
      (freezeAuthority : Option Pubkey) (tokenProgramId : Pubkey)
  | raw (ins : RawInstruction)
  deriving DecidableEq, Repr

/-- A transaction submitted through sendAndConfirm: its instruction list
and the extra signer keypairs passed alongside (by public key). -/
structure SentTx where
  instructions : List Ix
  signers : List Pubkey
  deriving DecidableEq, Repr

/-- Result of getAccount: the fields of a token account this code reads. -/
structure TokenAccountInfo where
  mint : Pubkey
  amount : Nat
  deriving DecidableEq, Repr

/-- Result of getMint: the fields of a mint this code reads. -/
structure MintInfo where
  decimals : Nat
  transferHookProgramId : Option Pubkey
  deriving DecidableEq, Repr

/-- One entry of getSignaturesForAddress. -/
structure SigInfo where
  signature : String
  blockTime : Int
  err : Option String
  deriving DecidableEq, Repr

/-- Opaque transaction object returned by getTransaction; the code only
tests it for null. -/
structure TxData where
  raw : String
  deriving DecidableEq, Repr

/-- Balance entry pushed by getTokenBalances. -/
structure BalanceEntry where
  mint : String
  amount : Nat
  decimals : Nat
  isTransferHookEnabled : Bool
  symbol : String
  deriving DecidableEq, Repr

/-- Transaction entry pushed by getTransactions. -/
structure TxEntry where
  signature : String
  timestamp : Int
  status : String
  type : String
  description : String
  deriving DecidableEq, Repr

/-- Accounts record of the initializeExtraAccountMetaList anchor call. -/
structure InitMetaListAccounts where
  payer : Pubkey
  mint : Pubkey
  extraAccountMetaList : Pubkey
  systemProgram : Pubkey
  deriving DecidableEq, Repr

/-- Accounts record of the issueBadge anchor call. -/
structure IssueBadgeAccounts where
  authority : Pubkey
  user : Pubkey
  tokenBadge : Pubkey
  systemProgram : Pubkey
  deriving DecidableEq, Repr

/-- Token-2022 program id, a constant of the spl-token SDK. -/
def TOKEN_2022_PROGRAM_ID : Pubkey := "TokenzQdBNbLqP5VEhdkAS6EPFLC1PHnBqCXEpPxuEb"

/-- System program id, a constant of web3.js. -/
def SYSTEM_PROGRAM_ID : Pubkey := "11111111111111111111111111111111"

/-- Modelled from the spec: the metadata.address field of the repository
file ./idl/slipless_hook.json, which is not under src/; only this
address is observable in the embedded code, as an opaque public key. -/
def idlMetadataAddress : Pubkey := "SliplessHook1111111111111111111111111111111"

/-- TRANSFER_HOOK_PROGRAM_ID = new PublicKey(idl.metadata.address). -/
def TRANSFER_HOOK_PROGRAM_ID : Pubkey := idlMetadataAddress

/-- JavaScript Number applied to a nonnegative integer (for example a
BigInt token amount, or the exact value of an integer product): exact
below 2 ^ 53, otherwise rounded to the nearest representable double,
ties to the even mantissa. -/
def jsNumberOfNat (x : Nat) : Nat :=
  if x < 2 ^ 53 then x
  else
    let ulp := 2 ^ (Nat.log2 x - 52)
    let q := x / ulp
    let r := x % ulp
    if 2 * r > ulp ∨ (2 * r = ulp ∧ q % 2 = 1) then ulp * (q + 1) else ulp * q

/-- The raw token amount computed by both transferTokens variants:
amount * Math.pow(10, 9) in double arithmetic, for a natural amount. -/
def transferRawAmount (amount : Nat) : Nat :=
  jsNumberOfNat (amount * 10 ^ 9)

/-- Oracle record for every external SDK call the embedded code makes.
Fallible calls return Except String, the String being the message of the
thrown error; deterministic synchronous SDK helpers are plain function
fields.  A fresh record resolves the nondeterminism of one request. -/
structure Sdk where
  /-- new PublicKey(string): fails on invalid base-58 input. -/
  createPublicKey : String → Except String Pubkey
  /-- getMintLen(extensions). -/
  getMintLen : List ExtensionType → Nat
  /-- PublicKey.findProgramAddressSync(seeds, programId).  Seeds are
  modelled as the list of their string forms; only the address (first
  component) is used by the code, so the bump byte is not modelled. -/
  findProgramAddressSync : List String → Pubkey → Pubkey
  /-- connection.getMinimumBalanceForRentExemption(len). -/
  getMinimumBalanceForRentExemption : Nat → Except String Nat
  /-- provider.sendAndConfirm(transaction, signers): returns a signature. -/
  sendAndConfirm : List Ix → List Pubkey → Except String String
  /-- program.methods.initializeExtraAccountMetaList().accounts(...).rpc(). -/
  initializeExtraAccountMetaListRpc : InitMetaListAccounts → Except String String
  /-- program.methods.issueBadge().accounts(...).rpc(). -/
  issueBadgeRpc : IssueBadgeAccounts → Except String String
  /-- getOrCreateAssociatedTokenAccount(connection, payer, mint, owner,
  false, confirmed, empty, TOKEN_2022_PROGRAM_ID): returns the address
  of the associated token account, the only field the code reads. -/
  getOrCreateAssociatedTokenAccount : Pubkey → Pubkey → Except String Pubkey
  /-- createTransferCheckedWithTransferHookInstruction(connection, source,
  mint, destination, owner, amount, decimals, signers, confirmed,
  programId): returns the built instruction. -/
  createTransferCheckedWithTransferHookInstruction :
    Pubkey → Pubkey → Pubkey → Pubkey → Nat → Nat → Except String RawInstruction
  /-- transfer(connection, payer, source, destination, owner, amount,
  signers, options, programId), the plain spl-token transfer used by the
  second variant: returns a signature. -/
  splTransfer : Pubkey → Pubkey → Pubkey → Nat → Except String String
  /-- connection.getTokenAccountsByOwner(owner, filter with programId):
  returns the list of token account addresses. -/
  getTokenAccountsByOwner : Pubkey → Pubkey → Except String (List Pubkey)
  /-- getAccount(connection, address, confirmed, programId). -/
  getAccount : Pubkey → Pubkey → Except String TokenAccountInfo
  /-- getMint(connection, mint, confirmed, programId). -/
  getMint : Pubkey → Pubkey → Except String MintInfo
  /-- connection.getSignaturesForAddress(address, options): the full
  signature stream for the address, before the limit option is applied. -/
  getSignaturesForAddress : Pubkey → Except String (List SigInfo)
  /-- connection.getTransaction(signature, options): null when unknown. -/
  getTransaction : String → Except String (Option TxData)
  /-- connection.getBalance(pubkey): lamports. -/
  getBalance : Pubkey → Except String Nat
  /-- JSON.parse applied to SERVER_WALLET_SECRET_KEY: a byte array. -/
  jsonParseSecretKey : String → Except String (List Nat)
  /-- Keypair.fromSecretKey(bytes). -/
  keypairFromSecretKey : List Nat → Except String Keypair

/-- SDK contract of the limit option: getSignaturesForAddress with a
limit returns at most limit signatures, the newest prefix of the
stream. -/
def Sdk.signaturesFor (sdk : Sdk) (pk : Pubkey) (limit : Nat) :
    Except String (List SigInfo) :=
  (sdk.getSignaturesForAddress pk).map (fun sigs => sigs.take limit)

/-- Anchor wallet: its public key and its payer keypair (by public key;
for the server wallet the payer is the wallet keypair itself). -/
structure Wallet where
  publicKey : Pubkey
  payer : Pubkey
  deriving DecidableEq, Repr

/-- Anchor Program handle; the provider indirection is collapsed, so
program.provider.wallet is the wallet field. -/
structure ProgramHandle where
  programId : Pubkey
  wallet : Wallet
  deriving DecidableEq, Repr

/-- Connection object: the constructor arguments the code supplies. -/
structure Connection where
  rpcEndpoint : String
  commitment : String
  deriving DecidableEq, Repr

/-- The service object built once at startup.  Its two fields are
assigned in the constructor and never reassigned anywhere in the file;
every handler threads the instance through unchanged. -/
structure SolanaService where
  connection : Connection
  program : ProgramHandle
  deriving DecidableEq, Repr

/-- Process environment read by the code. -/
structure Env where
  rpcUrl : Option String
  serverWalletSecretKey : Option String
  deriving DecidableEq, Repr

/-- RPC_ENDPOINT = process.env.RPC_URL or the devnet default. -/
def RPC_ENDPOINT (env : Env) : String :=
  env.rpcUrl.getD "https://api.devnet.solana.com"

/-- SolanaService.createTokenMint, first variant.  The fresh
Keypair.generate() result is passed in as the per-request random value.
Returns the JavaScript return value (mint address string) together with
the transactions submitted through sendAndConfirm. -/
def SolanaService.createTokenMint (svc : SolanaService) (sdk : Sdk)
    (mintKeypair : Keypair) : Except String (String × List SentTx) := do
  let extensions := [ExtensionType.TransferHook]
  let mintLen := sdk.getMintLen extensions
  let lamports ← sdk.getMinimumBalanceForRentExemption mintLen
  let transaction : List Ix :=
    [ .createAccount svc.program.wallet.publicKey mintKeypair.publicKey mintLen
        lamports TOKEN_2022_PROGRAM_ID,
      .initializeTransferHook mintKeypair.publicKey svc.program.wallet.publicKey
        svc.program.programId TOKEN_2022_PROGRAM_ID,
      .initializeMint mintKeypair.publicKey 9 svc.program.wallet.publicKey none
        TOKEN_2022_PROGRAM_ID ]
  let _sig ← sdk.sendAndConfirm transaction [mintKeypair.publicKey]
  let extraAccountMetaListPDA :=
    sdk.findProgramAddressSync ["extra-account-metas", mintKeypair.publicKey]
      svc.program.programId
  let _rpc ← sdk.initializeExtraAccountMetaListRpc
    { payer := svc.program.wallet.publicKey
      mint := mintKeypair.publicKey
      extraAccountMetaList := extraAccountMetaListPDA
      systemProgram := SYSTEM_PROGRAM_ID }
  return (mintKeypair.publicKey, [⟨transaction, [mintKeypair.publicKey]⟩])

/-- SolanaService.issueBadge, first variant.  PublicKey construction is
wrapped in a try/catch that rethrows with a prefixed message; the rest
throws through unchanged. -/
def SolanaService.issueBadge (svc : SolanaService) (sdk : Sdk)
    (mintAddress recipientAddress : String) : Except String Unit := do
  let keys ← (match (do
      let mint ← sdk.createPublicKey mintAddress
      let recipient ← sdk.createPublicKey recipientAddress
      pure (mint, recipient) : Except String (Pubkey × Pubkey)) with
    | .error msg => .error ("Invalid public key input: " ++ msg)
    | .ok v => .ok v)
  let recipient := keys.2
  let tokenBadgePDA :=
    sdk.findProgramAddressSync ["token-badge", recipient] svc.program.programId
  let _rpc ← sdk.issueBadgeRpc
    { authority := svc.program.wallet.publicKey
      user := recipient
      tokenBadge := tokenBadgePDA
      systemProgram := SYSTEM_PROGRAM_ID }
  return ()

/-- The two transferInstruction.keys.push(...) statements of the first
variant transferTokens: the SDK instruction with the transfer hook
program id and the extra account meta list PDA appended as read-only
non-signer keys. -/
def pushedTransferIx (transferInstruction : RawInstruction)
    (extraAccountMetaListPDA : Pubkey) : RawInstruction :=
  { transferInstruction with
      keys := transferInstruction.keys ++
        [ ⟨TRANSFER_HOOK_PROGRAM_ID, false, false⟩,
          ⟨extraAccountMetaListPDA, false, false⟩ ] }

/-- SolanaService.transferTokens, first variant.  Builds the transfer
instruction through the SDK, then pushes two extra account metas onto
its keys before submitting it.  Returns the transactions submitted
through sendAndConfirm (the JavaScript return value is undefined). -/
def SolanaService.transferTokens (svc : SolanaService) (sdk : Sdk)
    (mintAddress recipientAddress : String) (amount : Nat) :
    Except String (List SentTx) := do
  let mint ← sdk.createPublicKey mintAddress
  let recipient ← sdk.createPublicKey recipientAddress
  let authority := svc.program.wallet.publicKey
  let sourceATA ← sdk.getOrCreateAssociatedTokenAccount mint authority
  let destinationATA ← sdk.getOrCreateAssociatedTokenAccount mint recipient
  let extraAccountMetaListPDA :=
    sdk.findProgramAddressSync ["extra-account-metas", mint] svc.program.programId
  let transferInstruction ← sdk.createTransferCheckedWithTransferHookInstruction
    sourceATA mint destinationATA authority (transferRawAmount amount) 9
  let transaction : List Ix :=
    [.raw (pushedTransferIx transferInstruction extraAccountMetaListPDA)]
  let _sig ← sdk.sendAndConfirm transaction [svc.program.wallet.payer]
  return [⟨transaction, [svc.program.wallet.payer]⟩]

/-- Loop body of getTokenBalances, first variant: for each token account
fetch the account and its mint and push one balance entry; a thrown
error aborts the whole loop. -/
def balancesLoop (sdk : Sdk) : List Pubkey → Except String (List BalanceEntry)
  | [] => .ok []
  | account :: rest => do
    let accountInfo ← sdk.getAccount account TOKEN_2022_PROGRAM_ID
    let mintInfo ← sdk.getMint accountInfo.mint TOKEN_2022_PROGRAM_ID
    let tail ← balancesLoop sdk rest
    return { mint := accountInfo.mint
             amount := jsNumberOfNat accountInfo.amount
             decimals := mintInfo.decimals
             isTransferHookEnabled := mintInfo.transferHookProgramId.isSome
             symbol := "" } :: tail

/-- SolanaService.getTokenBalances, first variant. -/
def SolanaService.getTokenBalances (svc : SolanaService) (sdk : Sdk)
    (ownerAddress : String) : Except String (List BalanceEntry) := do
  let ownerPublicKey ← sdk.createPublicKey ownerAddress
  let tokenAccounts ← sdk.getTokenAccountsByOwner ownerPublicKey TOKEN_2022_PROGRAM_ID
  balancesLoop sdk tokenAccounts

/-- Loop body of getTransactions, first variant: look each signature up
and keep an entry exactly when the lookup is non-null. -/
def txLoop (sdk : Sdk) : List SigInfo → Except String (List TxEntry)
  | [] => .ok []
  | sigInfo :: rest => do
    let tx ← sdk.getTransaction sigInfo.signature
    let tail ← txLoop sdk rest
    match tx with
    | some _ =>
      return { signature := sigInfo.signature
               timestamp := sigInfo.blockTime * 1000
               status := if sigInfo.err.isSome then "failed" else "confirmed"
               type := "Unknown"
               description := "" } :: tail
    | none => return tail

/-- SolanaService.getTransactions, first variant, with the default limit
of 10.  The defensive connection null check of the source cannot fire
here because the connection field is always present after construction,
and the catch block rethrows the same error, so both are no-ops in the
embedding. -/
def SolanaService.getTransactions (svc : SolanaService) (sdk : Sdk)
    (publicKey : String) (limit : Nat := 10) : Except String (List TxEntry) := do
  let pubKey ← sdk.createPublicKey publicKey
  let signatures ← sdk.signaturesFor pubKey limit
  txLoop sdk signatures

/-- SolanaService.getServerWalletBalance, first variant: lamports over
10 ^ 9.  The null guard on the wallet cannot fire in the embedding and
the catch rethrows unchanged. -/
def SolanaService.getServerWalletBalance (svc : SolanaService) (sdk : Sdk) :
    Except String Rat := do
  let lamports ← sdk.getBalance svc.program.wallet.publicKey
  return (lamports : Rat) / 10 ^ 9

/-- JSON values, the shape of every res.json body. -/
inductive JVal where
  | null
  | bool (b : Bool)
  | num (q : Rat)
  | str (s : String)
  | arr (elems : List JVal)
  | obj (fields : List (String × JVal))
  deriving Repr

/-- Field lookup on a JSON object; none on other values. -/
def jlookup (j : JVal) (key : String) : Option JVal :=
  match j with
  | .obj fields => fields.lookup key
  | _ => none

/-- An HTTP response: status code (res.json defaults to 200) and body. -/
structure Response where
  status : Nat
  body : JVal
  deriving Repr

/-- JSON encoding of a balance entry: exactly the five fields the code
pushes, in source order. -/
def BalanceEntry.toJson (b : BalanceEntry) : JVal :=
  .obj [ ("mint", .str b.mint),
         ("amount", .num (b.amount : Rat)),
         ("decimals", .num (b.decimals : Rat)),
         ("isTransferHookEnabled", .bool b.isTransferHookEnabled),
         ("symbol", .str b.symbol) ]

/-- JSON encoding of a transaction entry, in source order. -/
def TxEntry.toJson (t : TxEntry) : JVal :=
  .obj [ ("signature", .str t.signature),
         ("timestamp", .num (t.timestamp : Rat)),
         ("status", .str t.status),
         ("type", .str t.type),
         ("description", .str t.description) ]

/-- Body sent by the unified catch blocks of the success-style routes. -/
def errBody (msg : String) : JVal :=
  .obj [ ("success", .bool false), ("error", .str msg) ]

/-- Body sent by every route when the module-level solanaService is not
initialized (the constructor threw at startup). -/
def notInitializedBody : JVal :=
  errBody "Backend service not initialized."

/-- POST /api/create-token.  The handler threads the service through
unchanged: no route assigns to solanaService or its fields. -/
def createTokenRoute (svc? : Option SolanaService) (sdk : Sdk)
    (mintKeypair : Keypair) : Response × Option SolanaService :=
  match svc? with
  | none => (⟨500, notInitializedBody⟩, none)
  | some svc =>
    match svc.createTokenMint sdk mintKeypair with
    | .ok (mintAddress, _) =>
      (⟨200, .obj [("success", .bool true), ("mintAddress", .str mintAddress)]⟩, some svc)
    | .error msg => (⟨500, errBody msg⟩, some svc)

/-- POST /api/issue-badge. -/
def issueBadgeRoute (svc? : Option SolanaService) (sdk : Sdk)
    (mintAddress recipientAddress : String) : Response × Option SolanaService :=
  match svc? with
  | none => (⟨500, notInitializedBody⟩, none)
  | some svc =>
    match svc.issueBadge sdk mintAddress recipientAddress with
    | .ok _ => (⟨200, .obj [("success", .bool true)]⟩, some svc)
    | .error msg => (⟨500, errBody msg⟩, some svc)

/-- POST /api/transfer. -/
def transferRoute (svc? : Option SolanaService) (sdk : Sdk)
    (mintAddress recipientAddress : String) (amount : Nat) :
    Response × Option SolanaService :=
  match svc? with
  | none => (⟨500, notInitializedBody⟩, none)
  | some svc =>
    match svc.transferTokens sdk mintAddress recipientAddress amount with
    | .ok _ => (⟨200, .obj [("success", .bool true)]⟩, some svc)
    | .error msg => (⟨500, errBody msg⟩, some svc)

/-- GET /api/token-balances. -/
def tokenBalancesRoute (svc? : Option SolanaService) (sdk : Sdk)
    (ownerAddress : String) : Response × Option SolanaService :=
  match svc? with
  | none => (⟨500, notInitializedBody⟩, none)
  | some svc =>
    match svc.getTokenBalances sdk ownerAddress with
    | .ok balances =>
      (⟨200, .obj [("success", .bool true),
                   ("balances", .arr (balances.map BalanceEntry.toJson))]⟩, some svc)
    | .error msg => (⟨500, errBody msg⟩, some svc)

/-- GET /api/transactions: calls getTransactions without a limit, so the
default of 10 applies. -/
def transactionsRoute (svc? : Option SolanaService) (sdk : Sdk)
    (publicKey : String) : Response × Option SolanaService :=
  match svc? with
  | none => (⟨500, notInitializedBody⟩, none)
  | some svc =>
    match svc.getTransactions sdk publicKey with
    | .ok transactions =>
      (⟨200, .obj [("success", .bool true),
                   ("transactions", .arr (transactions.map TxEntry.toJson))]⟩, some svc)
    | .error msg => (⟨500, errBody msg⟩, some svc)

/-- GET /api/server-wallet-transactions: like /api/transactions but on
the server wallet public key, again with the default limit. -/
def serverWalletTransactionsRoute (svc? : Option SolanaService) (sdk : Sdk) :
    Response × Option SolanaService :=
  match svc? with
  | none => (⟨500, notInitializedBody⟩, none)
  | some svc =>
    match svc.getTransactions sdk svc.program.wallet.publicKey with
    | .ok transactions =>
      (⟨200, .obj [("success", .bool true),
                   ("transactions", .arr (transactions.map TxEntry.toJson))]⟩, some svc)
    | .error msg => (⟨500, errBody msg⟩, some svc)

/-- GET /api/health: no service guard and no fallible operation. -/
def healthRoute (svc? : Option SolanaService) : Response × Option SolanaService :=
  (⟨200, .obj [("status", .str "OK")]⟩, svc?)

/-- The fallible operations of the wallet-status try block, in source
order: JSON.parse of the secret, Keypair.fromSecretKey, and the balance
read. -/
def walletStatusOp (svc : SolanaService) (sdk : Sdk) (secretStr : String) :
    Except String (Keypair × Rat) := do
  let secret ← sdk.jsonParseSecretKey secretStr
  let keypair ← sdk.keypairFromSecretKey secret
  let balance ← svc.getServerWalletBalance sdk
  pure (keypair, balance)

/-- GET /api/wallet-status.  Note both its error bodies use connected,
not success. -/
def walletStatusRoute (svc? : Option SolanaService) (sdk : Sdk) (env : Env) :
    Response × Option SolanaService :=
  match svc? with
  | none =>
    (⟨500, .obj [("connected", .bool false),
                 ("error", .str "Backend service not initialized.")]⟩, none)
  | some svc =>
    match env.serverWalletSecretKey with
    | some secretStr =>
      match walletStatusOp svc sdk secretStr with
      | .ok (keypair, balance) =>
        (⟨200, .obj [("connected", .bool true),
                     ("publicKey", .str keypair.publicKey),
                     ("balance", .num balance)]⟩, some svc)
      | .error msg =>
        (⟨500, .obj [("connected", .bool false), ("error", .str msg)]⟩, some svc)
    | none =>
      (⟨200, .obj [("connected", .bool false),
                   ("message", .str "SERVER_WALLET_SECRET_KEY not set.")]⟩, some svc)

/-- GET /api/program-info: pure response from startup constants; its try
body cannot throw, so only the guard branch differs. -/
def programInfoRoute (svc? : Option SolanaService) (env : Env) :
    Response × Option SolanaService :=
  match svc? with
  | none => (⟨500, .obj [("error", .str "Backend service not initialized.")]⟩, none)
  | some svc =>
    (⟨200, .obj [("rpcEndpoint", .str (RPC_ENDPOINT env)),
                 ("transferHookProgramId", .str TRANSFER_HOOK_PROGRAM_ID)]⟩, some svc)

/-- One inbound request: the route it hits, its parameters, and the
per-request oracle resolving that request against the outside world. -/
inductive Request where
  | createToken (sdk : Sdk) (freshMint : Keypair)
  | issueBadge (sdk : Sdk) (mintAddress recipientAddress : String)
  | transfer (sdk : Sdk) (mintAddress recipientAddress : String) (amount : Nat)
  | tokenBalances (sdk : Sdk) (ownerAddress : String)
  | transactions (sdk : Sdk) (publicKey : String)
  | serverWalletTransactions (sdk : Sdk)
  | health
  | walletStatus (sdk : Sdk) (env : Env)
  | programInfo (env : Env)

/-- Dispatch a request to its route handler. -/
def processRequest (svc? : Option SolanaService) :
    Request → Response × Option SolanaService
  | .createToken sdk freshMint => createTokenRoute svc? sdk freshMint
  | .issueBadge sdk mintAddress recipientAddress =>
    issueBadgeRoute svc? sdk mintAddress recipientAddress
  | .transfer sdk mintAddress recipientAddress amount =>
    transferRoute svc? sdk mintAddress recipientAddress amount
  | .tokenBalances sdk ownerAddress => tokenBalancesRoute svc? sdk ownerAddress
  | .transactions sdk publicKey => transactionsRoute svc? sdk publicKey
  | .serverWalletTransactions sdk => serverWalletTransactionsRoute svc? sdk
  | .health => healthRoute svc?
  | .walletStatus sdk env => walletStatusRoute svc? sdk env
  | .programInfo env => programInfoRoute svc? env

/-- Process a sequence of requests in order, threading the service. -/
def processAll (svc? : Option SolanaService) :
    List Request → List Response × Option SolanaService
  | [] => ([], svc?)
  | r :: rest =>
    let step := processRequest svc? r
    let tail := processAll step.2 rest
    (step.1 :: tail.1, tail.2)

/-- HTTP methods used by the route registrations. -/
inductive Method where
  | get
  | post
  deriving DecidableEq, Repr

/-- Every route registration of the first variant, in source order;
nothing else is registered on the app. -/
def registeredRoutes : List (Method × String) :=
  [ (.post, "/api/create-token"),
    (.post, "/api/issue-badge"),
    (.post, "/api/transfer"),
    (.get, "/api/token-balances"),
    (.get, "/api/transactions"),
    (.get, "/api/server-wallet-transactions"),
    (.get, "/api/health"),
    (.get, "/api/wallet-status"),
    (.get, "/api/program-info") ]

namespace V2

/-- V2.transferTokens, second variant: plain spl-token transfer, same
raw amount computation, no decimals argument and no key pushing. -/
def transferTokens (svc : SolanaService) (sdk : Sdk)
    (mintAddress recipientAddress : String) (amount : Nat) :
    Except String Unit := do
  let mint ← sdk.createPublicKey mintAddress
  let recipient ← sdk.createPublicKey recipientAddress
  let authority := svc.program.wallet.publicKey
  let sourceATA ← sdk.getOrCreateAssociatedTokenAccount mint authority
  let destinationATA ← sdk.getOrCreateAssociatedTokenAccount mint recipient
  let _sig ← sdk.splTransfer sourceATA destinationATA authority
    (transferRawAmount amount)
  return ()

/-- Loop body of V2.getTokenBalances, second variant (textually the same
loop as the first variant). -/
def balancesLoop (sdk : Sdk) : List Pubkey → Except String (List BalanceEntry)
  | [] => .ok []
  | account :: rest => do
    let accountInfo ← sdk.getAccount account TOKEN_2022_PROGRAM_ID
    let mintInfo ← sdk.getMint accountInfo.mint TOKEN_2022_PROGRAM_ID
    let tail ← balancesLoop sdk rest
    return { mint := accountInfo.mint
             amount := jsNumberOfNat accountInfo.amount
             decimals := mintInfo.decimals
             isTransferHookEnabled := mintInfo.transferHookProgramId.isSome
             symbol := "" } :: tail

/-- V2.getTokenBalances, second variant. -/
def getTokenBalances (svc : SolanaService) (sdk : Sdk)
    (ownerAddress : String) : Except String (List BalanceEntry) := do
  let ownerPublicKey ← sdk.createPublicKey ownerAddress
  let tokenAccounts ← sdk.getTokenAccountsByOwner ownerPublicKey TOKEN_2022_PROGRAM_ID
  balancesLoop sdk tokenAccounts

end V2

/-- Concrete service instance used by witnesses and counterexamples. -/
def svcW : SolanaService :=
  ⟨⟨"https://api.devnet.solana.com", "confirmed"⟩,
   ⟨TRANSFER_HOOK_PROGRAM_ID, ⟨"ServerWallet", "ServerWallet"⟩⟩⟩

/-- Concrete environment with a secret key set, for witnesses. -/
def envW : Env := ⟨none, some "secretjson"⟩

/-- Concrete oracle on which every call succeeds, for witnesses. -/
def sdkOk : Sdk where
  createPublicKey := fun s => .ok s
  getMintLen := fun _ => 234
  findProgramAddressSync := fun seeds programId =>
    String.intercalate "/" (programId :: seeds)
  getMinimumBalanceForRentExemption := fun _ => .ok 1000000
  sendAndConfirm := fun _ _ => .ok "sig1"
  initializeExtraAccountMetaListRpc := fun _ => .ok "sig2"
  issueBadgeRpc := fun _ => .ok "sig3"
  getOrCreateAssociatedTokenAccount := fun mint owner =>
    .ok ("ata." ++ mint ++ "." ++ owner)
  createTransferCheckedWithTransferHookInstruction := fun src mint dst owner _ _ =>
    .ok ⟨TOKEN_2022_PROGRAM_ID,
         [⟨src, false, true⟩, ⟨mint, false, false⟩, ⟨dst, false, true⟩,
          ⟨owner, true, false⟩], "data"⟩
  splTransfer := fun _ _ _ _ => .ok "sig4"
  getTokenAccountsByOwner := fun _ _ => .ok ["Acct1"]
  getAccount := fun _ _ => .ok ⟨"Mint1", 7⟩
  getMint := fun _ _ => .ok ⟨9, some TRANSFER_HOOK_PROGRAM_ID⟩
  getSignaturesForAddress := fun _ =>
    .ok [⟨"Sig1", 100, none⟩, ⟨"Sig2", 200, some "custom program error"⟩]
  getTransaction := fun _ => .ok (some ⟨"tx"⟩)
  getBalance := fun _ => .ok 2000000000
  jsonParseSecretKey := fun _ => .ok [1, 2, 3]
  keypairFromSecretKey := fun _ => .ok ⟨"ServerWallet"⟩

/-- Concrete oracle whose public key construction and rent exemption
call throw, for error-path witnesses. -/
def sdkFail : Sdk :=
  { sdkOk with
      createPublicKey := fun _ => .error "boom"
      getMinimumBalanceForRentExemption := fun _ => .error "boom" }

/-- Concrete oracle whose balance read throws. -/
def sdkBalFail : Sdk :=
  { sdkOk with getBalance := fun _ => .error "boom" }

/-- Concrete oracle on which only the second public key construction
throws, for the recipient branch of the issueBadge wrapping. -/
def sdkRecipFail : Sdk :=
  { sdkOk with
      createPublicKey := fun s => if s = "M" then .ok "M" else .error "boom" }

/-- Concrete oracle whose transfer instruction builder returns an
instruction with an empty key list, exposing the key pushing of the
first variant transferTokens. -/
def sdkEmptyKeys : Sdk :=
  { sdkOk with
      createTransferCheckedWithTransferHookInstruction := fun _ _ _ _ _ _ =>
        .ok ⟨TOKEN_2022_PROGRAM_ID, [], "data"⟩ }

theorem jsNumberOfNat_eq_of_lt {x : Nat} (h : x < 2 ^ 53) : jsNumberOfNat x = x := by
  unfold jsNumberOfNat
  rw [if_pos h]

theorem processRequest_state (svc? : Option SolanaService) (r : Request) :
    (processRequest svc? r).2 = svc? := by
  cases svc? <;> cases r <;>
    simp only [processRequest, createTokenRoute, issueBadgeRoute, transferRoute,
      tokenBalancesRoute, transactionsRoute, serverWalletTransactionsRoute,
      healthRoute, walletStatusRoute, programInfoRoute] <;>
    (repeat' split) <;> rfl

theorem processAll_state (svc? : Option SolanaService) (rs : List Request) :
    (processAll svc? rs).2 = svc? := by
  induction rs generalizing svc? with
  | nil => rfl
  | cons r rest ih =>
    simp only [processAll]
    rw [processRequest_state svc? r]
    exact ih svc?

/-- C4: the service holds no mutable state of its own.  The single
shared SolanaService instance (an Option, none when the constructor
threw at startup) is returned unchanged by every request, in particular
its connection and program fields and the wallet they carry; and the
response to a request appended after any previously handled sequence of
requests is exactly the response that request would get against the
initial instance, so responses never depend on earlier requests. -/
theorem c4_no_mutable_state (svc? : Option SolanaService) (rs : List Request)
    (r : Request) :
    (processRequest svc? r).2 = svc? ∧
    (processAll svc? rs).2 = svc? ∧
    (processAll svc? (rs ++ [r])).1 =
      (processAll svc? rs).1 ++ [(processRequest svc? r).1] := by
  refine ⟨processRequest_state svc? r, processAll_state svc? rs, ?_⟩
  induction rs generalizing svc? with
  | nil => simp [processAll, processRequest_state]
  | cons q rest ih =>
    simp only [List.cons_append, processAll]
    rw [processRequest_state svc? q]
    rw [List.append_eq, ih svc?]

/-- C3 fails as stated: the first variant also registers the route
GET /api/server-wallet-transactions, which is none of the eight
endpoints the claim allows. -/
theorem c3_counterexample :
    (Method.get, "/api/server-wallet-transactions") ∈ registeredRoutes ∧
    "/api/server-wallet-transactions" ∉
      ["/api/create-token", "/api/issue-badge", "/api/transfer",
       "/api/token-balances", "/api/transactions", "/api/wallet-status",
       "/api/program-info", "/api/health"] := by
  constructor
  · simp [registeredRoutes]
  · simp

/-- C3 amended: the externally observable REST surface consists of
exactly nine endpoints, the eight claimed ones plus
server-wallet-transactions; nothing else is registered. -/
theorem c3_amended_theorem :
    registeredRoutes.map Prod.snd =
      ["/api/create-token", "/api/issue-badge", "/api/transfer",
       "/api/token-balances", "/api/transactions",
       "/api/server-wallet-transactions", "/api/health",
       "/api/wallet-status", "/api/program-info"] := rfl

/-- C1 fails as stated: a wallet-status request on which the underlying
SDK balance read throws with message boom is answered with status 500,
but the JSON body is connected:false plus the error, not the
success:false body the claim requires of every endpoint. -/
theorem c1_counterexample :
    (walletStatusRoute (some svcW) sdkBalFail envW).1.status = 500 ∧
    (walletStatusRoute (some svcW) sdkBalFail envW).1.body =
      JVal.obj [("connected", JVal.bool false), ("error", JVal.str "boom")] ∧
    JVal.obj [("connected", JVal.bool false), ("error", JVal.str "boom")] ≠
      JVal.obj [("success", JVal.bool false), ("error", JVal.str "boom")] := by
  refine ⟨rfl, rfl, ?_⟩
  simp

/-- C1 amended: every request on which the underlying operation throws
is answered with HTTP 500.  For create-token, issue-badge, transfer,
token-balances, transactions and server-wallet-transactions the body is
success:false with the thrown message, which is the underlying SDK
message except that issueBadge rethrows public key construction
failures with the message prefixed by Invalid public key input and a
colon; wallet-status answers connected:false with the message instead
of success:false; health and program-info run no fallible operation. -/
theorem c1_amended_theorem :
    (∀ svc sdk kp msg, SolanaService.createTokenMint svc sdk kp = .error msg →
      createTokenRoute (some svc) sdk kp = (⟨500, errBody msg⟩, some svc)) ∧
    (∀ svc sdk ma ra msg, SolanaService.issueBadge svc sdk ma ra = .error msg →
      issueBadgeRoute (some svc) sdk ma ra = (⟨500, errBody msg⟩, some svc)) ∧
    (∀ svc sdk ma ra msg, sdk.createPublicKey ma = .error msg →
      SolanaService.issueBadge svc sdk ma ra =
        .error ("Invalid public key input: " ++ msg)) ∧
    (∀ svc sdk ma ra mint msg, sdk.createPublicKey ma = .ok mint →
      sdk.createPublicKey ra = .error msg →
      SolanaService.issueBadge svc sdk ma ra =
        .error ("Invalid public key input: " ++ msg)) ∧
    (∀ svc sdk ma ra amt msg,
      SolanaService.transferTokens svc sdk ma ra amt = .error msg →
      transferRoute (some svc) sdk ma ra amt = (⟨500, errBody msg⟩, some svc)) ∧
    (∀ svc sdk owner msg, SolanaService.getTokenBalances svc sdk owner = .error msg →
      tokenBalancesRoute (some svc) sdk owner = (⟨500, errBody msg⟩, some svc)) ∧
    (∀ svc sdk pk msg, SolanaService.getTransactions svc sdk pk = .error msg →
      transactionsRoute (some svc) sdk pk = (⟨500, errBody msg⟩, some svc)) ∧
    (∀ svc sdk msg,
      SolanaService.getTransactions svc sdk svc.program.wallet.publicKey = .error msg →
      serverWalletTransactionsRoute (some svc) sdk = (⟨500, errBody msg⟩, some svc)) ∧
    (∀ svc sdk env secretStr msg, env.serverWalletSecretKey = some secretStr →
      walletStatusOp svc sdk secretStr = .error msg →
      walletStatusRoute (some svc) sdk env =
        (⟨500, .obj [("connected", .bool false), ("error", .str msg)]⟩, some svc)) := by
  refine ⟨?_, ?_, ?_, ?_, ?_, ?_, ?_, ?_, ?_⟩
  · intro svc sdk kp msg h
    simp [createTokenRoute, h]
  · intro svc sdk ma ra msg h
    simp [issueBadgeRoute, h]
  · intro svc sdk ma ra msg h
    simp [SolanaService.issueBadge, h, Bind.bind, Except.bind, Functor.map, Except.map]
  · intro svc sdk ma ra mint msg h1 h2
    simp [SolanaService.issueBadge, h1, h2, Bind.bind, Except.bind, Functor.map,
      Except.map]
  · intro svc sdk ma ra amt msg h
    simp [transferRoute, h]
  · intro svc sdk owner msg h
    simp [tokenBalancesRoute, h]
  · intro svc sdk pk msg h
    simp [transactionsRoute, h]
  · intro svc sdk msg h
    simp [serverWalletTransactionsRoute, h]
  · intro svc sdk env secretStr msg h1 h2
    simp [walletStatusRoute, h1, h2]

/-- Witness for C1 amended at concrete inputs: every conjunct is applied
against an oracle that throws boom at the relevant call. -/
theorem c1_amended_witness :
    createTokenRoute (some svcW) sdkFail ⟨"MintPub"⟩ =
      (⟨500, errBody "boom"⟩, some svcW) ∧
    issueBadgeRoute (some svcW) sdkFail "M" "R" =
      (⟨500, errBody "Invalid public key input: boom"⟩, some svcW) ∧
    SolanaService.issueBadge svcW sdkFail "M" "R" =
      .error ("Invalid public key input: " ++ "boom") ∧
    SolanaService.issueBadge svcW sdkRecipFail "M" "R" =
      .error ("Invalid public key input: " ++ "boom") ∧
    transferRoute (some svcW) sdkFail "M" "R" 1 =
      (⟨500, errBody "boom"⟩, some svcW) ∧
    tokenBalancesRoute (some svcW) sdkFail "Owner" =
      (⟨500, errBody "boom"⟩, some svcW) ∧
    transactionsRoute (some svcW) sdkFail "PK" =
      (⟨500, errBody "boom"⟩, some svcW) ∧
    serverWalletTransactionsRoute (some svcW) sdkFail =
      (⟨500, errBody "boom"⟩, some svcW) ∧
    walletStatusRoute (some svcW) sdkBalFail envW =
      (⟨500, .obj [("connected", .bool false), ("error", .str "boom")]⟩, some svcW) :=
  ⟨c1_amended_theorem.1 svcW sdkFail ⟨"MintPub"⟩ "boom" rfl,
   c1_amended_theorem.2.1 svcW sdkFail "M" "R" "Invalid public key input: boom" rfl,
   c1_amended_theorem.2.2.1 svcW sdkFail "M" "R" "boom" rfl,
   c1_amended_theorem.2.2.2.1 svcW sdkRecipFail "M" "R" "M" "boom" rfl rfl,
   c1_amended_theorem.2.2.2.2.1 svcW sdkFail "M" "R" 1 "boom" rfl,
   c1_amended_theorem.2.2.2.2.2.1 svcW sdkFail "Owner" "boom" rfl,
   c1_amended_theorem.2.2.2.2.2.2.1 svcW sdkFail "PK" "boom" rfl,
   c1_amended_theorem.2.2.2.2.2.2.2.1 svcW sdkFail "boom" rfl,
   c1_amended_theorem.2.2.2.2.2.2.2.2 svcW sdkBalFail envW "secretjson" "boom" rfl rfl⟩

/-- C2 fails as stated: /api/health belongs to the documented surface,
yet its JSON response is status:OK and carries no success field at
all. -/
theorem c2_counterexample :
    (healthRoute (some svcW)).1 = ⟨200, JVal.obj [("status", JVal.str "OK")]⟩ ∧
    jlookup (healthRoute (some svcW)).1.body "success" = none := ⟨rfl, rfl⟩

/-- C2 amended: the five endpoints create-token, issue-badge, transfer,
token-balances and transactions answer success:true with the expected
shape when the underlying SDK call succeeds and success:false with
status 500 when it throws; health always answers status:OK,
wallet-status reports connected instead of success, and program-info
returns the info object bare, so those three responses carry no success
field. -/
theorem c2_amended_theorem :
    (∀ svc sdk kp addr txs,
      SolanaService.createTokenMint svc sdk kp = .ok (addr, txs) →
      createTokenRoute (some svc) sdk kp =
        (⟨200, .obj [("success", .bool true), ("mintAddress", .str addr)]⟩, some svc)) ∧
    (∀ svc sdk kp msg, SolanaService.createTokenMint svc sdk kp = .error msg →
      createTokenRoute (some svc) sdk kp = (⟨500, errBody msg⟩, some svc)) ∧
    (∀ svc sdk ma ra, SolanaService.issueBadge svc sdk ma ra = .ok () →
      issueBadgeRoute (some svc) sdk ma ra =
        (⟨200, .obj [("success", .bool true)]⟩, some svc)) ∧
    (∀ svc sdk ma ra msg, SolanaService.issueBadge svc sdk ma ra = .error msg →
      issueBadgeRoute (some svc) sdk ma ra = (⟨500, errBody msg⟩, some svc)) ∧
    (∀ svc sdk ma ra amt txs,
      SolanaService.transferTokens svc sdk ma ra amt = .ok txs →
      transferRoute (some svc) sdk ma ra amt =
        (⟨200, .obj [("success", .bool true)]⟩, some svc)) ∧
    (∀ svc sdk ma ra amt msg,
      SolanaService.transferTokens svc sdk ma ra amt = .error msg →
      transferRoute (some svc) sdk ma ra amt = (⟨500, errBody msg⟩, some svc)) ∧
    (∀ svc sdk owner bs, SolanaService.getTokenBalances svc sdk owner = .ok bs →
      tokenBalancesRoute (some svc) sdk owner =
        (⟨200, .obj [("success", .bool true),
                     ("balances", .arr (bs.map BalanceEntry.toJson))]⟩, some svc)) ∧
    (∀ svc sdk owner msg, SolanaService.getTokenBalances svc sdk owner = .error msg →
      tokenBalancesRoute (some svc) sdk owner = (⟨500, errBody msg⟩, some svc)) ∧
    (∀ svc sdk pk ts, SolanaService.getTransactions svc sdk pk = .ok ts →
      transactionsRoute (some svc) sdk pk =
        (⟨200, .obj [("success", .bool true),
                     ("transactions", .arr (ts.map TxEntry.toJson))]⟩, some svc)) ∧
    (∀ svc sdk pk msg, SolanaService.getTransactions svc sdk pk = .error msg →
      transactionsRoute (some svc) sdk pk = (⟨500, errBody msg⟩, some svc)) ∧
    (∀ svc?, (healthRoute svc?).1 = ⟨200, .obj [("status", .str "OK")]⟩ ∧
      jlookup (healthRoute svc?).1.body "success" = none) ∧
    (∀ svc sdk env secretStr keypair balance,
      env.serverWalletSecretKey = some secretStr →
      walletStatusOp svc sdk secretStr = .ok (keypair, balance) →
      walletStatusRoute (some svc) sdk env =
        (⟨200, .obj [("connected", .bool true),
                     ("publicKey", .str keypair.publicKey),
                     ("balance", .num balance)]⟩, some svc) ∧
      jlookup (walletStatusRoute (some svc) sdk env).1.body "success" = none) ∧
    (∀ svc env, programInfoRoute (some svc) env =
        (⟨200, .obj [("rpcEndpoint", .str (RPC_ENDPOINT env)),
                     ("transferHookProgramId", .str TRANSFER_HOOK_PROGRAM_ID)]⟩,
         some svc) ∧
      jlookup (programInfoRoute (some svc) env).1.body "success" = none) := by
  refine ⟨?_, ?_, ?_, ?_, ?_, ?_, ?_, ?_, ?_, ?_, ?_, ?_, ?_⟩
  · intro svc sdk kp addr txs h
    simp [createTokenRoute, h]
  · intro svc sdk kp msg h
    simp [createTokenRoute, h]
  · intro svc sdk ma ra h
    simp [issueBadgeRoute, h]
  · intro svc sdk ma ra msg h
    simp [issueBadgeRoute, h]
  · intro svc sdk ma ra amt txs h
    simp [transferRoute, h]
  · intro svc sdk ma ra amt msg h
    simp [transferRoute, h]
  · intro svc sdk owner bs h
    simp [tokenBalancesRoute, h]
  · intro svc sdk owner msg h
    simp [tokenBalancesRoute, h]
  · intro svc sdk pk ts h
    simp [transactionsRoute, h]
  · intro svc sdk pk msg h
    simp [transactionsRoute, h]
  · intro svc?
    exact ⟨rfl, rfl⟩
  · intro svc sdk env secretStr keypair balance h1 h2
    constructor
    · simp [walletStatusRoute, h1, h2]
    · simp [walletStatusRoute, h1, h2, jlookup]
  · intro svc env
    exact ⟨rfl, rfl⟩

/-- Witness for C2 amended at concrete inputs: the success path of each
of the five success-style endpoints against the all-ok oracle, the
throwing path against the failing oracle, and the three endpoints
without a success field. -/
theorem c2_amended_witness :
    createTokenRoute (some svcW) sdkOk ⟨"MintPub"⟩ =
      (⟨200, .obj [("success", .bool true), ("mintAddress", .str "MintPub")]⟩,
       some svcW) ∧
    createTokenRoute (some svcW) sdkFail ⟨"MintPub"⟩ =
      (⟨500, errBody "boom"⟩, some svcW) ∧
    issueBadgeRoute (some svcW) sdkOk "M" "R" =
      (⟨200, .obj [("success", .bool true)]⟩, some svcW) ∧
    issueBadgeRoute (some svcW) sdkFail "M" "R" =
      (⟨500, errBody "Invalid public key input: boom"⟩, some svcW) ∧
    transferRoute (some svcW) sdkOk "M" "R" 1 =
      (⟨200, .obj [("success", .bool true)]⟩, some svcW) ∧
    transferRoute (some svcW) sdkFail "M" "R" 1 =
      (⟨500, errBody "boom"⟩, some svcW) ∧
    tokenBalancesRoute (some svcW) sdkOk "Owner" =
      (⟨200, .obj [("success", .bool true),
                   ("balances", .arr (([⟨"Mint1", 7, 9, true, ""⟩] :
                      List BalanceEntry).map BalanceEntry.toJson))]⟩, some svcW) ∧
    tokenBalancesRoute (some svcW) sdkFail "Owner" =
      (⟨500, errBody "boom"⟩, some svcW) ∧
    transactionsRoute (some svcW) sdkOk "PK" =
      (⟨200, .obj [("success", .bool true),
                   ("transactions", .arr (([⟨"Sig1", 100000, "confirmed", "Unknown", ""⟩,
                      ⟨"Sig2", 200000, "failed", "Unknown", ""⟩] :
                      List TxEntry).map TxEntry.toJson))]⟩, some svcW) ∧
    transactionsRoute (some svcW) sdkFail "PK" =
      (⟨500, errBody "boom"⟩, some svcW) ∧
    (healthRoute (some svcW)).1 = ⟨200, .obj [("status", .str "OK")]⟩ ∧
    walletStatusRoute (some svcW) sdkOk envW =
      (⟨200, .obj [("connected", .bool true),
                   ("publicKey", .str "ServerWallet"),
                   ("balance", .num (((2000000000 : Nat) : Rat) / 10 ^ 9))]⟩,
       some svcW) ∧
    programInfoRoute (some svcW) envW =
      (⟨200, .obj [("rpcEndpoint", .str (RPC_ENDPOINT envW)),
                   ("transferHookProgramId", .str TRANSFER_HOOK_PROGRAM_ID)]⟩,
       some svcW) :=
  ⟨c2_amended_theorem.1 svcW sdkOk ⟨"MintPub"⟩ "MintPub"
      [⟨[ .createAccount "ServerWallet" "MintPub" 234 1000000 TOKEN_2022_PROGRAM_ID,
          .initializeTransferHook "MintPub" "ServerWallet" TRANSFER_HOOK_PROGRAM_ID
            TOKEN_2022_PROGRAM_ID,
          .initializeMint "MintPub" 9 "ServerWallet" none TOKEN_2022_PROGRAM_ID ],
        ["MintPub"]⟩] rfl,
   c2_amended_theorem.2.1 svcW sdkFail ⟨"MintPub"⟩ "boom" rfl,
   c2_amended_theorem.2.2.1 svcW sdkOk "M" "R" rfl,
   c2_amended_theorem.2.2.2.1 svcW sdkFail "M" "R" "Invalid public key input: boom" rfl,
   c2_amended_theorem.2.2.2.2.1 svcW sdkOk "M" "R" 1
      [⟨[.raw (pushedTransferIx
            ⟨TOKEN_2022_PROGRAM_ID,
             [⟨"ata.M.ServerWallet", false, true⟩, ⟨"M", false, false⟩,
              ⟨"ata.M.R", false, true⟩, ⟨"ServerWallet", true, false⟩], "data"⟩
            (sdkOk.findProgramAddressSync ["extra-account-metas", "M"]
              TRANSFER_HOOK_PROGRAM_ID))],
        ["ServerWallet"]⟩] rfl,
   c2_amended_theorem.2.2.2.2.2.1 svcW sdkFail "M" "R" 1 "boom" rfl,
   c2_amended_theorem.2.2.2.2.2.2.1 svcW sdkOk "Owner" [⟨"Mint1", 7, 9, true, ""⟩] rfl,
   c2_amended_theorem.2.2.2.2.2.2.2.1 svcW sdkFail "Owner" "boom" rfl,
   c2_amended_theorem.2.2.2.2.2.2.2.2.1 svcW sdkOk "PK"
      [⟨"Sig1", 100000, "confirmed", "Unknown", ""⟩,
       ⟨"Sig2", 200000, "failed", "Unknown", ""⟩] rfl,
   c2_amended_theorem.2.2.2.2.2.2.2.2.2.1 svcW sdkFail "PK" "boom" rfl,
   (c2_amended_theorem.2.2.2.2.2.2.2.2.2.2.1 (some svcW)).1,
   (c2_amended_theorem.2.2.2.2.2.2.2.2.2.2.2.1 svcW sdkOk envW "secretjson" ⟨"ServerWallet"⟩
      (((2000000000 : Nat) : Rat) / 10 ^ 9) rfl rfl).1,
   (c2_amended_theorem.2.2.2.2.2.2.2.2.2.2.2.2 svcW envW).1⟩

/-- C5 fails as stated: against an oracle whose instruction builder
returns an instruction with an empty key list, the instruction this
repository submits carries two account keys the SDK never produced, the
transfer hook program id and the extra account meta list PDA, so the
submitted instruction is not the SDK instruction. -/
theorem c5_counterexample :
    sdkEmptyKeys.createTransferCheckedWithTransferHookInstruction
      "ata.M.ServerWallet" "M" "ata.M.R" "ServerWallet" (transferRawAmount 1) 9 =
      .ok ⟨TOKEN_2022_PROGRAM_ID, [], "data"⟩ ∧
    SolanaService.transferTokens svcW sdkEmptyKeys "M" "R" 1 =
      .ok [⟨[.raw ⟨TOKEN_2022_PROGRAM_ID,
               [⟨TRANSFER_HOOK_PROGRAM_ID, false, false⟩,
                ⟨sdkEmptyKeys.findProgramAddressSync ["extra-account-metas", "M"]
                   TRANSFER_HOOK_PROGRAM_ID, false, false⟩], "data"⟩],
             ["ServerWallet"]⟩] ∧
    (⟨TOKEN_2022_PROGRAM_ID,
      [⟨TRANSFER_HOOK_PROGRAM_ID, false, false⟩,
       ⟨sdkEmptyKeys.findProgramAddressSync ["extra-account-metas", "M"]
          TRANSFER_HOOK_PROGRAM_ID, false, false⟩], "data"⟩ : RawInstruction) ≠
      ⟨TOKEN_2022_PROGRAM_ID, [], "data"⟩ := by
  refine ⟨rfl, rfl, ?_⟩
  simp

/-- C5 amended: for every transfer request, the submitted instruction is
the instruction returned by createTransferCheckedWithTransferHookInstruction
with its program id and data unchanged, but with exactly two read-only
non-signer account keys appended by this repository: the transfer hook
program id and the extra account meta list PDA. -/
theorem c5_amended_theorem (svc : SolanaService) (sdk : Sdk)
    (ma ra : String) (amount : Nat) (mint rcp src dst pda : Pubkey)
    (ti : RawInstruction)
    (h1 : sdk.createPublicKey ma = .ok mint)
    (h2 : sdk.createPublicKey ra = .ok rcp)
    (h3 : sdk.getOrCreateAssociatedTokenAccount mint svc.program.wallet.publicKey =
      .ok src)
    (h4 : sdk.getOrCreateAssociatedTokenAccount mint rcp = .ok dst)
    (h5 : sdk.createTransferCheckedWithTransferHookInstruction src mint dst
      svc.program.wallet.publicKey (transferRawAmount amount) 9 = .ok ti)
    (hpda : pda = sdk.findProgramAddressSync ["extra-account-metas", mint]
      svc.program.programId) :
    (pushedTransferIx ti pda).programId = ti.programId ∧
    (pushedTransferIx ti pda).data = ti.data ∧
    (pushedTransferIx ti pda).keys = ti.keys ++
      [⟨TRANSFER_HOOK_PROGRAM_ID, false, false⟩, ⟨pda, false, false⟩] ∧
    SolanaService.transferTokens svc sdk ma ra amount =
      (sdk.sendAndConfirm [.raw (pushedTransferIx ti pda)]
          [svc.program.wallet.payer]).map
        (fun _ => [⟨[.raw (pushedTransferIx ti pda)], [svc.program.wallet.payer]⟩]) := by
  subst hpda
  refine ⟨rfl, rfl, rfl, ?_⟩
  cases hs : sdk.sendAndConfirm
      [.raw (pushedTransferIx ti (sdk.findProgramAddressSync
        ["extra-account-metas", mint] svc.program.programId))]
      [svc.program.wallet.payer] with
  | error e =>
    simp [SolanaService.transferTokens, h1, h2, h3, h4, h5, hs,
      Bind.bind, Except.bind, Except.map]
  | ok sig =>
    simp [SolanaService.transferTokens, h1, h2, h3, h4, h5, hs,
      Bind.bind, Except.bind, Except.map, Pure.pure, Except.pure]

/-- Witness for C5 amended at concrete inputs against the all-ok
oracle. -/
theorem c5_amended_witness :
    (pushedTransferIx
        ⟨TOKEN_2022_PROGRAM_ID,
         [⟨"ata.M.ServerWallet", false, true⟩, ⟨"M", false, false⟩,
          ⟨"ata.M.R", false, true⟩, ⟨"ServerWallet", true, false⟩], "data"⟩
        (sdkOk.findProgramAddressSync ["extra-account-metas", "M"]
          TRANSFER_HOOK_PROGRAM_ID)).keys =
      [⟨"ata.M.ServerWallet", false, true⟩, ⟨"M", false, false⟩,
       ⟨"ata.M.R", false, true⟩, ⟨"ServerWallet", true, false⟩] ++
      [⟨TRANSFER_HOOK_PROGRAM_ID, false, false⟩,
       ⟨sdkOk.findProgramAddressSync ["extra-account-metas", "M"]
          TRANSFER_HOOK_PROGRAM_ID, false, false⟩] ∧
    SolanaService.transferTokens svcW sdkOk "M" "R" 1 =
      (sdkOk.sendAndConfirm
          [.raw (pushedTransferIx
            ⟨TOKEN_2022_PROGRAM_ID,
             [⟨"ata.M.ServerWallet", false, true⟩, ⟨"M", false, false⟩,
              ⟨"ata.M.R", false, true⟩, ⟨"ServerWallet", true, false⟩], "data"⟩
            (sdkOk.findProgramAddressSync ["extra-account-metas", "M"]
              TRANSFER_HOOK_PROGRAM_ID))]
          ["ServerWallet"]).map
        (fun _ => [⟨[.raw (pushedTransferIx
            ⟨TOKEN_2022_PROGRAM_ID,
             [⟨"ata.M.ServerWallet", false, true⟩, ⟨"M", false, false⟩,
              ⟨"ata.M.R", false, true⟩, ⟨"ServerWallet", true, false⟩], "data"⟩
            (sdkOk.findProgramAddressSync ["extra-account-metas", "M"]
              TRANSFER_HOOK_PROGRAM_ID))], ["ServerWallet"]⟩]) := by
  have h := c5_amended_theorem svcW sdkOk "M" "R" 1 "M" "R"
    "ata.M.ServerWallet" "ata.M.R"
    (sdkOk.findProgramAddressSync ["extra-account-metas", "M"]
      TRANSFER_HOOK_PROGRAM_ID)
    ⟨TOKEN_2022_PROGRAM_ID,
     [⟨"ata.M.ServerWallet", false, true⟩, ⟨"M", false, false⟩,
      ⟨"ata.M.R", false, true⟩, ⟨"ServerWallet", true, false⟩], "data"⟩
    rfl rfl rfl rfl rfl rfl
  exact ⟨h.2.2.1, h.2.2.2⟩

/-- C6: on every successful create-token request the response is
success:true with mintAddress the base-58 string of the freshly
generated mint keypair public key, and that same key is the new account
of the createAccount instruction and the mint of the initialize
instructions in the submitted transaction, which the keypair also
signs. -/
theorem c6_theorem (svc : SolanaService) (sdk : Sdk) (kp : Keypair)
    (addr : String) (txs : List SentTx)
    (h : SolanaService.createTokenMint svc sdk kp = .ok (addr, txs)) :
    addr = kp.publicKey ∧
    createTokenRoute (some svc) sdk kp =
      (⟨200, .obj [("success", .bool true),
                   ("mintAddress", .str kp.publicKey)]⟩, some svc) ∧
    ∃ lamports,
      sdk.getMinimumBalanceForRentExemption
        (sdk.getMintLen [ExtensionType.TransferHook]) = .ok lamports ∧
      txs = [⟨[ .createAccount svc.program.wallet.publicKey kp.publicKey
                  (sdk.getMintLen [ExtensionType.TransferHook]) lamports
                  TOKEN_2022_PROGRAM_ID,
                .initializeTransferHook kp.publicKey svc.program.wallet.publicKey
                  svc.program.programId TOKEN_2022_PROGRAM_ID,
                .initializeMint kp.publicKey 9 svc.program.wallet.publicKey none
                  TOKEN_2022_PROGRAM_ID ],
              [kp.publicKey]⟩] := by
  have hroute : createTokenRoute (some svc) sdk kp =
      (⟨200, .obj [("success", .bool true), ("mintAddress", .str addr)]⟩, some svc) := by
    simp [createTokenRoute, h]
  unfold SolanaService.createTokenMint at h
  simp only [Bind.bind, Except.bind] at h
  split at h
  · exact absurd h (by simp)
  · next lamports heq =>
    split at h
    · exact absurd h (by simp)
    · next sig heq2 =>
      split at h
      · exact absurd h (by simp)
      · next r heq3 =>
        simp only [Pure.pure, Except.pure, Except.ok.injEq, Prod.mk.injEq] at h
        obtain ⟨ha, ht⟩ := h
        subst ha
        exact ⟨rfl, hroute, lamports, heq, ht.symm⟩

/-- Witness for C6 at a concrete fresh keypair against the all-ok
oracle. -/
theorem c6_witness :
    "MintPub" = (Keypair.mk "MintPub").publicKey ∧
    createTokenRoute (some svcW) sdkOk ⟨"MintPub"⟩ =
      (⟨200, .obj [("success", .bool true),
                   ("mintAddress", .str (Keypair.mk "MintPub").publicKey)]⟩,
       some svcW) ∧
    ∃ lamports,
      sdkOk.getMinimumBalanceForRentExemption
        (sdkOk.getMintLen [ExtensionType.TransferHook]) = .ok lamports ∧
      [(⟨[ .createAccount "ServerWallet" "MintPub" 234 1000000 TOKEN_2022_PROGRAM_ID,
           .initializeTransferHook "MintPub" "ServerWallet" TRANSFER_HOOK_PROGRAM_ID
             TOKEN_2022_PROGRAM_ID,
           .initializeMint "MintPub" 9 "ServerWallet" none TOKEN_2022_PROGRAM_ID ],
         ["MintPub"]⟩ : SentTx)] =
      [⟨[ .createAccount svcW.program.wallet.publicKey (Keypair.mk "MintPub").publicKey
            (sdkOk.getMintLen [ExtensionType.TransferHook]) lamports
            TOKEN_2022_PROGRAM_ID,
          .initializeTransferHook (Keypair.mk "MintPub").publicKey
            svcW.program.wallet.publicKey svcW.program.programId
            TOKEN_2022_PROGRAM_ID,
          .initializeMint (Keypair.mk "MintPub").publicKey 9
            svcW.program.wallet.publicKey none TOKEN_2022_PROGRAM_ID ],
        [(Keypair.mk "MintPub").publicKey]⟩] :=
  c6_theorem svcW sdkOk ⟨"MintPub"⟩ "MintPub"
    [⟨[ .createAccount "ServerWallet" "MintPub" 234 1000000 TOKEN_2022_PROGRAM_ID,
        .initializeTransferHook "MintPub" "ServerWallet" TRANSFER_HOOK_PROGRAM_ID
          TOKEN_2022_PROGRAM_ID,
        .initializeMint "MintPub" 9 "ServerWallet" none TOKEN_2022_PROGRAM_ID ],
      ["MintPub"]⟩] rfl

theorem balancesLoop_spec (sdk : Sdk) (accts : List Pubkey) (bs : List BalanceEntry)
    (h : balancesLoop sdk accts = .ok bs) :
    bs.length = accts.length ∧
    ∀ i : Nat, ∀ hi : i < accts.length, ∀ hb : i < bs.length,
      ∃ info mi,
        sdk.getAccount (accts.get ⟨i, hi⟩) TOKEN_2022_PROGRAM_ID = .ok info ∧
        sdk.getMint info.mint TOKEN_2022_PROGRAM_ID = .ok mi ∧
        bs.get ⟨i, hb⟩ = ⟨info.mint, jsNumberOfNat info.amount, mi.decimals,
          mi.transferHookProgramId.isSome, ""⟩ := by
  induction accts generalizing bs with
  | nil =>
    unfold balancesLoop at h
    simp only [Except.ok.injEq] at h
    subst h
    simp
  | cons a rest ih =>
    unfold balancesLoop at h
    simp only [Bind.bind, Except.bind] at h
    split at h
    · exact absurd h (by simp)
    · next info heqA =>
      split at h
      · exact absurd h (by simp)
      · next mi heqM =>
        split at h
        · exact absurd h (by simp)
        · next tail heqT =>
          simp only [Pure.pure, Except.pure, Except.ok.injEq] at h
          subst h
          obtain ⟨hlen, hpt⟩ := ih tail heqT
          refine ⟨by simp [hlen], ?_⟩
          intro i hi hb
          cases i with
          | zero => exact ⟨info, mi, heqA, heqM, rfl⟩
          | succ j =>
            have hj : j < rest.length := by simpa using hi
            have hjb : j < tail.length := by simpa using hb
            simpa using hpt j hj hjb

/-- C7: on every successful token-balances request the balances list has
exactly one entry per Token-2022 token account the SDK returned for the
owner, the i-th entry being built from the i-th account: mint is the
account mint string, amount the account amount as a JavaScript number,
decimals the mint decimals, isTransferHookEnabled true exactly when the
mint transferHookProgramId is non-null, and symbol the empty string; and
the route answers success:true with exactly those five fields encoded
per entry. -/
theorem c7_theorem (svc : SolanaService) (sdk : Sdk) (owner : String)
    (opk : Pubkey) (accts : List Pubkey) (bs : List BalanceEntry)
    (h1 : sdk.createPublicKey owner = .ok opk)
    (h2 : sdk.getTokenAccountsByOwner opk TOKEN_2022_PROGRAM_ID = .ok accts)
    (h : SolanaService.getTokenBalances svc sdk owner = .ok bs) :
    bs.length = accts.length ∧
    (∀ i : Nat, ∀ hi : i < accts.length, ∀ hb : i < bs.length,
      ∃ info mi,
        sdk.getAccount (accts.get ⟨i, hi⟩) TOKEN_2022_PROGRAM_ID = .ok info ∧
        sdk.getMint info.mint TOKEN_2022_PROGRAM_ID = .ok mi ∧
        bs.get ⟨i, hb⟩ = ⟨info.mint, jsNumberOfNat info.amount, mi.decimals,
          mi.transferHookProgramId.isSome, ""⟩) ∧
    (∀ b ∈ bs, b.symbol = "" ∧
      BalanceEntry.toJson b =
        .obj [("mint", .str b.mint), ("amount", .num (b.amount : Rat)),
              ("decimals", .num (b.decimals : Rat)),
              ("isTransferHookEnabled", .bool b.isTransferHookEnabled),
              ("symbol", .str b.symbol)]) ∧
    tokenBalancesRoute (some svc) sdk owner =
      (⟨200, .obj [("success", .bool true),
                   ("balances", .arr (bs.map BalanceEntry.toJson))]⟩, some svc) := by
  have hroute : tokenBalancesRoute (some svc) sdk owner =
      (⟨200, .obj [("success", .bool true),
                   ("balances", .arr (bs.map BalanceEntry.toJson))]⟩, some svc) := by
    simp [tokenBalancesRoute, h]
  unfold SolanaService.getTokenBalances at h
  rw [h1] at h
  simp only [Bind.bind, Except.bind] at h
  rw [h2] at h
  obtain ⟨hlen, hpt⟩ := balancesLoop_spec sdk accts bs h
  refine ⟨hlen, hpt, ?_, hroute⟩
  intro b hb
  obtain ⟨n, hn⟩ := List.mem_iff_get.mp hb
  have hib : (n : Nat) < bs.length := n.isLt
  have hia : (n : Nat) < accts.length := by omega
  obtain ⟨info, mi, _, _, hbeq⟩ := hpt n hia hib
  constructor
  · rw [← hn]
    have : bs.get n = bs.get ⟨(n : Nat), hib⟩ := rfl
    rw [this, hbeq]
  · rfl

/-- Witness for C7 at a concrete owner against the all-ok oracle. -/
theorem c7_witness :
    ([⟨"Mint1", 7, 9, true, ""⟩] : List BalanceEntry).length =
      (["Acct1"] : List Pubkey).length ∧
    (∀ i : Nat, ∀ hi : i < (["Acct1"] : List Pubkey).length,
      ∀ hb : i < ([⟨"Mint1", 7, 9, true, ""⟩] : List BalanceEntry).length,
      ∃ info mi,
        sdkOk.getAccount ((["Acct1"] : List Pubkey).get ⟨i, hi⟩)
          TOKEN_2022_PROGRAM_ID = .ok info ∧
        sdkOk.getMint info.mint TOKEN_2022_PROGRAM_ID = .ok mi ∧
        ([⟨"Mint1", 7, 9, true, ""⟩] : List BalanceEntry).get ⟨i, hb⟩ =
          ⟨info.mint, jsNumberOfNat info.amount, mi.decimals,
           mi.transferHookProgramId.isSome, ""⟩) ∧
    (∀ b ∈ ([⟨"Mint1", 7, 9, true, ""⟩] : List BalanceEntry), b.symbol = "" ∧
      BalanceEntry.toJson b =
        .obj [("mint", .str b.mint), ("amount", .num (b.amount : Rat)),
              ("decimals", .num (b.decimals : Rat)),
              ("isTransferHookEnabled", .bool b.isTransferHookEnabled),
              ("symbol", .str b.symbol)]) ∧
    tokenBalancesRoute (some svcW) sdkOk "Owner" =
      (⟨200, .obj [("success", .bool true),
                   ("balances", .arr (([⟨"Mint1", 7, 9, true, ""⟩] :
                      List BalanceEntry).map BalanceEntry.toJson))]⟩, some svcW) :=
  c7_theorem svcW sdkOk "Owner" "Owner" ["Acct1"] [⟨"Mint1", 7, 9, true, ""⟩]
    rfl rfl rfl

theorem txLoop_spec (sdk : Sdk) (sigs : List SigInfo) (ts : List TxEntry)
    (h : txLoop sdk sigs = .ok ts) :
    ts.length ≤ sigs.length ∧
    ∀ t ∈ ts, ∃ s ∈ sigs, t.signature = s.signature ∧
      (∃ tx, sdk.getTransaction s.signature = .ok (some tx)) ∧
      t.timestamp = s.blockTime * 1000 ∧
      t.status = (if s.err.isSome then "failed" else "confirmed") ∧
      t.type = "Unknown" ∧ t.description = "" := by
  induction sigs generalizing ts with
  | nil =>
    unfold txLoop at h
    simp only [Except.ok.injEq] at h
    subst h
    simp
  | cons s rest ih =>
    unfold txLoop at h
    simp only [Bind.bind, Except.bind] at h
    split at h
    · exact absurd h (by simp)
    · next tx heqT =>
      split at h
      · exact absurd h (by simp)
      · next tail heqL =>
        obtain ⟨hlen, hpt⟩ := ih tail heqL
        cases tx with
        | some w =>
          simp only [Pure.pure, Except.pure, Except.ok.injEq] at h
          subst h
          refine ⟨by simp; omega, ?_⟩
          intro t ht
          rcases List.mem_cons.mp ht with hhd | htl
          · subst hhd
            exact ⟨s, List.mem_cons_self s rest, rfl, ⟨w, heqT⟩, rfl, rfl, rfl, rfl⟩
          · obtain ⟨s2, hs2, hrest⟩ := hpt t htl
            exact ⟨s2, List.mem_cons_of_mem s hs2, hrest⟩
        | none =>
          simp only [Pure.pure, Except.pure, Except.ok.injEq] at h
          subst h
          refine ⟨by simp; omega, ?_⟩
          intro t ht
          obtain ⟨s2, hs2, hrest⟩ := hpt t ht
          exact ⟨s2, List.mem_cons_of_mem s hs2, hrest⟩

/-- C9: the transactions routes call getTransactions with its default
limit of 10, so the returned list has at most 10 entries; every entry
comes from a signature in the first 10 whose transaction lookup was
non-null, its status is failed exactly when that signature err field is
non-null and confirmed otherwise, and its timestamp is the signature
blockTime times 1000; the server-wallet-transactions route is the same
handler applied at the server wallet public key. -/
theorem c9_theorem (svc : SolanaService) (sdk : Sdk) (pk : String)
    (pubk : Pubkey) (allSigs : List SigInfo) (ts : List TxEntry)
    (h1 : sdk.createPublicKey pk = .ok pubk)
    (h2 : sdk.getSignaturesForAddress pubk = .ok allSigs)
    (h : SolanaService.getTransactions svc sdk pk = .ok ts) :
    SolanaService.getTransactions svc sdk pk =
      SolanaService.getTransactions svc sdk pk 10 ∧
    ts.length ≤ 10 ∧
    (∀ t ∈ ts, ∃ s ∈ allSigs.take 10, t.signature = s.signature ∧
      (∃ tx, sdk.getTransaction s.signature = .ok (some tx)) ∧
      t.timestamp = s.blockTime * 1000 ∧
      t.status = (if s.err.isSome then "failed" else "confirmed")) ∧
    transactionsRoute (some svc) sdk pk =
      (⟨200, .obj [("success", .bool true),
                   ("transactions", .arr (ts.map TxEntry.toJson))]⟩, some svc) ∧
    (∀ svc2 sdk2, serverWalletTransactionsRoute (some svc2) sdk2 =
      transactionsRoute (some svc2) sdk2 svc2.program.wallet.publicKey) := by
  have hroute : transactionsRoute (some svc) sdk pk =
      (⟨200, .obj [("success", .bool true),
                   ("transactions", .arr (ts.map TxEntry.toJson))]⟩, some svc) := by
    simp [transactionsRoute, h]
  unfold SolanaService.getTransactions at h
  rw [h1] at h
  simp only [Bind.bind, Except.bind, Sdk.signaturesFor] at h
  rw [h2] at h
  simp only [Except.map] at h
  obtain ⟨hlen, hpt⟩ := txLoop_spec sdk (allSigs.take 10) ts h
  refine ⟨rfl, ?_, ?_, hroute, fun svc2 sdk2 => rfl⟩
  · calc ts.length ≤ (allSigs.take 10).length := hlen
      _ ≤ 10 := by simp
  · intro t ht
    obtain ⟨s, hs, hsig, htx, htime, hstat, _, _⟩ := hpt t ht
    exact ⟨s, hs, hsig, htx, htime, hstat⟩

/-- Witness for C9 at a concrete public key against the all-ok oracle,
whose stream has one confirmed and one failed signature. -/
theorem c9_witness :
    SolanaService.getTransactions svcW sdkOk "PK" =
      SolanaService.getTransactions svcW sdkOk "PK" 10 ∧
    ([⟨"Sig1", 100000, "confirmed", "Unknown", ""⟩,
      ⟨"Sig2", 200000, "failed", "Unknown", ""⟩] : List TxEntry).length ≤ 10 ∧
    (∀ t ∈ ([⟨"Sig1", 100000, "confirmed", "Unknown", ""⟩,
             ⟨"Sig2", 200000, "failed", "Unknown", ""⟩] : List TxEntry),
      ∃ s ∈ ([⟨"Sig1", 100, none⟩,
              ⟨"Sig2", 200, some "custom program error"⟩] : List SigInfo).take 10,
        t.signature = s.signature ∧
        (∃ tx, sdkOk.getTransaction s.signature = .ok (some tx)) ∧
        t.timestamp = s.blockTime * 1000 ∧
        t.status = (if s.err.isSome then "failed" else "confirmed")) ∧
    transactionsRoute (some svcW) sdkOk "PK" =
      (⟨200, .obj [("success", .bool true),
                   ("transactions", .arr (([⟨"Sig1", 100000, "confirmed", "Unknown", ""⟩,
                      ⟨"Sig2", 200000, "failed", "Unknown", ""⟩] :
                      List TxEntry).map TxEntry.toJson))]⟩, some svcW) ∧
    (∀ svc2 sdk2, serverWalletTransactionsRoute (some svc2) sdk2 =
      transactionsRoute (some svc2) sdk2 svc2.program.wallet.publicKey) :=
  c9_theorem svcW sdkOk "PK" "PK"
    [⟨"Sig1", 100, none⟩, ⟨"Sig2", 200, some "custom program error"⟩]
    [⟨"Sig1", 100000, "confirmed", "Unknown", ""⟩,
     ⟨"Sig2", 200000, "failed", "Unknown", ""⟩] rfl rfl rfl

/-- C8: for every transfer request with natural amount a, both variants
pass a times 10 to the 9 as the raw amount to the SDK transfer call
(the first variant additionally fixing decimals at 9), and for
a * 10 ^ 9 below 2 ^ 53 the double arithmetic of the source computes
that product exactly. -/
theorem c8_theorem (svc : SolanaService) (sdk : Sdk) (ma ra : String)
    (amount : Nat) (mint rcp src dst : Pubkey)
    (h1 : sdk.createPublicKey ma = .ok mint)
    (h2 : sdk.createPublicKey ra = .ok rcp)
    (h3 : sdk.getOrCreateAssociatedTokenAccount mint svc.program.wallet.publicKey =
      .ok src)
    (h4 : sdk.getOrCreateAssociatedTokenAccount mint rcp = .ok dst)
    (hlt : amount * 10 ^ 9 < 2 ^ 53) :
    transferRawAmount amount = amount * 10 ^ 9 ∧
    SolanaService.transferTokens svc sdk ma ra amount =
      ((sdk.createTransferCheckedWithTransferHookInstruction src mint dst
          svc.program.wallet.publicKey (amount * 10 ^ 9) 9).bind fun ti =>
        (sdk.sendAndConfirm
            [.raw (pushedTransferIx ti (sdk.findProgramAddressSync
              ["extra-account-metas", mint] svc.program.programId))]
            [svc.program.wallet.payer]).bind fun _ =>
          .ok [⟨[.raw (pushedTransferIx ti (sdk.findProgramAddressSync
              ["extra-account-metas", mint] svc.program.programId))],
            [svc.program.wallet.payer]⟩]) ∧
    V2.transferTokens svc sdk ma ra amount =
      ((sdk.splTransfer src dst svc.program.wallet.publicKey
          (amount * 10 ^ 9)).bind fun _ => .ok ()) := by
  have hr : transferRawAmount amount = amount * 10 ^ 9 := by
    unfold transferRawAmount
    exact jsNumberOfNat_eq_of_lt hlt
  refine ⟨hr, ?_, ?_⟩
  · simp [SolanaService.transferTokens, h1, h2, h3, h4, hr, Bind.bind, Except.bind,
      Pure.pure, Except.pure]
  · simp [V2.transferTokens, h1, h2, h3, h4, hr, Bind.bind, Except.bind,
      Pure.pure, Except.pure]

/-- Witness for C8 at amount 3 against the all-ok oracle. -/
theorem c8_witness :
    transferRawAmount 3 = 3 * 10 ^ 9 ∧
    V2.transferTokens svcW sdkOk "M" "R" 3 =
      ((sdkOk.splTransfer "ata.M.ServerWallet" "ata.M.R" "ServerWallet"
          (3 * 10 ^ 9)).bind fun _ => .ok ()) := by
  have h := c8_theorem svcW sdkOk "M" "R" 3 "M" "R" "ata.M.ServerWallet" "ata.M.R"
    rfl rfl rfl rfl (by norm_num)
  exact ⟨h.1, h.2.2⟩

theorem balancesLoop_eq_v2 (sdk : Sdk) (accts : List Pubkey) :
    balancesLoop sdk accts = V2.balancesLoop sdk accts := by
  induction accts with
  | nil => rfl
  | cons a rest ih =>
    unfold balancesLoop V2.balancesLoop
    rw [ih]

/-- C10: the two concatenated server variants implement extensionally
equal getTokenBalances operations: for every owner address and every
oracle of SDK responses they return the same balance list. -/
theorem c10_theorem (svc : SolanaService) (sdk : Sdk) (owner : String) :
    SolanaService.getTokenBalances svc sdk owner =
      V2.getTokenBalances svc sdk owner := by
  unfold SolanaService.getTokenBalances V2.getTokenBalances
  simp only [balancesLoop_eq_v2]
